import Mathlib

/-!
Shallow embedding of the local_eats API gateway (Go, gin) request-translation
layer, together with theorems settling the specification claims.

Each gin handler from the source becomes a pure Lean function from its raw
inputs (path parameter strings, query parameter strings, the JSON-bind result
of the request body) and an oracle for the single backend RPC it may issue, to
an explicit outcome value recording the HTTP response and, when a call was
made, the RPC payload and the deadline used.  Library functions from the Go
standard library and its dependencies (strconv.Atoi, strconv.ParseFloat,
uuid.Parse, time.Parse, errors.Wrap) are modelled as executable Lean
functions; the JWT parse in the auth middleware, whose cryptography is
irrelevant to every claim, is a function parameter of the middleware model.
-/

namespace Gateway

/-- A JSON value, as far as the gateway manipulates one.  Success responses
from the backend are forwarded opaquely as such a value; failure responses are
built by the handlers as the object written in the source by
gin.H with the single key error. -/
inductive Json where
  | null : Json
  | str (s : String) : Json
  | obj (fields : List (String × Json)) : Json

/-- The error envelope each failure branch of the source writes:
the JSON rendering of gin.H with key "error" mapped to the message. -/
def errBody (msg : String) : Json :=
  Json.obj [("error", Json.str msg)]

/-- errors.Wrap(err, ctx).Error() from github.com/pkg/errors:
the context phrase, a colon and a space, then the wrapped error text. -/
def wrapErr (ctx inner : String) : String :=
  ctx ++ ": " ++ inner

/-- The record of one backend RPC invocation: the deadline (seconds) given to
context.WithTimeout and the request payload handed to the client stub. -/
structure GrpcCall (Req : Type) where
  timeoutSec : Nat
  payload : Req

/-- Outcome of running one handler body: either the request was rejected
before any RPC (c.AbortWithStatusJSON with no client call), or the RPC was
attempted and the handler answered with the given status and body. -/
inductive HResult (Req : Type) where
  | reject (status : Nat) (body : Json) : HResult Req
  | respond (call : GrpcCall Req) (status : Nat) (body : Json) : HResult Req

/-- The RPC call attempted by a handler run, if any. -/
def HResult.callOf {Req : Type} : HResult Req → Option (GrpcCall Req)
  | .reject _ _ => none
  | .respond c _ _ => some c

/-- The HTTP status of a handler outcome. -/
def HResult.statusOf {Req : Type} : HResult Req → Nat
  | .reject s _ => s
  | .respond _ s _ => s

/-- The HTTP body of a handler outcome. -/
def HResult.bodyOf {Req : Type} : HResult Req → Json
  | .reject _ b => b
  | .respond _ _ b => b

/-! ## Models of the library functions the handlers call -/

/-- Numeric value of a nonempty all-digit character list (base 10). -/
def digitsVal : List Char → Option Nat
  | [] => none
  | cs =>
    if cs.all Char.isDigit then
      some (cs.foldl (fun acc c => acc * 10 + (c.toNat - 48)) 0)
    else none

/-- strconv.Atoi: an optional single sign, then one or more ASCII digits,
nothing else; the value must fit in a 64-bit signed int, otherwise the
function errors (ErrRange).  Returns the parsed integer or the error text. -/
def goAtoi (s : String) : Except String Int :=
  let syntaxErr : Except String Int :=
    .error ("strconv.Atoi: parsing \x22" ++ s ++ "\x22: invalid syntax")
  let rangeErr : Except String Int :=
    .error ("strconv.Atoi: parsing \x22" ++ s ++ "\x22: value out of range")
  let core : List Char → Except String Int := fun ds =>
    match digitsVal ds with
    | none => syntaxErr
    | some n => if n ≤ 2 ^ 63 - 1 then .ok (Int.ofNat n) else rangeErr
  match s.data with
  | [] => syntaxErr
  | '+' :: rest => core rest
  | '-' :: rest =>
    match digitsVal rest with
    | none => syntaxErr
    | some n => if n ≤ 2 ^ 63 then .ok (-(Int.ofNat n)) else rangeErr
  | cs => core cs

/-- Conversion to Go's int32: two's-complement truncation to 32 bits.
The constants are 2^31 and 2^32. -/
def int32 (n : Int) : Int :=
  (n + 2147483648) % 4294967296 - 2147483648

/-- ASCII lower-casing of one character.  Stands in for the Unicode
lowering of Go's strings.ToLower; the strings it is compared against below
are all ASCII, where the two agree. -/
def lowerChar (c : Char) : Char :=
  if 'A' ≤ c && c ≤ 'Z' then Char.ofNat (c.toNat + 32) else c

/-- ASCII lower-casing of a string. -/
def asciiLower (s : String) : String := String.mk (s.data.map lowerChar)

/-- ASCII hexadecimal digit, as accepted by uuid.Parse. -/
def isHexDigit (c : Char) : Bool :=
  c.isDigit || ('a' ≤ c && c ≤ 'f') || ('A' ≤ c && c ≤ 'F')

/-- The canonical 36-character UUID layout: hyphens at offsets 8, 13, 18 and
23, hexadecimal digits everywhere else. -/
def uuidCanonical (cs : List Char) : Bool :=
  cs.length = 36 &&
    (List.range 36).all fun i =>
      if i = 8 || i = 13 || i = 18 || i = 23 then cs.getD i ' ' = '-'
      else isHexDigit (cs.getD i ' ')

/-- uuid.Parse from github.com/google/uuid, reduced to its accept/reject
behaviour: the canonical form, the urn:uuid: prefixed form, the braced form
and the bare 32-hex-digit form are accepted; anything else errors.  Character
counts stand in for Go's byte counts, which agree on ASCII input; non-ASCII
input is rejected by both.  The parsed value is never used by the handlers
(they forward the original string), so the success value is Unit. -/
def goUuidParse (s : String) : Except String Unit :=
  let cs := s.data
  if cs.length = 36 then
    if uuidCanonical cs then .ok () else .error "invalid UUID format"
  else if cs.length = 45 then
    if asciiLower (String.mk (cs.take 9)) = "urn:uuid:" && uuidCanonical (cs.drop 9)
    then .ok () else .error "invalid UUID format"
  else if cs.length = 38 then
    if cs.getD 0 ' ' = '{' && cs.getD 37 ' ' = '}' && uuidCanonical ((cs.drop 1).take 36)
    then .ok () else .error "invalid UUID format"
  else if cs.length = 32 then
    if cs.all isHexDigit then .ok () else .error "invalid UUID format"
  else .error ("invalid UUID length: " ++ toString cs.length)

/-- Gregorian leap-year rule, as used by Go's time package. -/
def isLeapYear (y : Nat) : Bool :=
  y % 4 = 0 && (y % 100 ≠ 0 || y % 400 = 0)

/-- Days in a month of a given year. -/
def daysInMonth (y m : Nat) : Nat :=
  if m = 2 then (if isLeapYear y then 29 else 28)
  else if m = 4 || m = 6 || m = 9 || m = 11 then 30
  else 31

/-- time.Parse with the fixed layout 2006-01-02: exactly ten characters,
four digits, a hyphen, a zero-padded two-digit month in 1..12, a hyphen, a
zero-padded two-digit day valid for that month and year.  The parsed value is
unused by the handlers (they forward the original string). -/
def goParseDate (s : String) : Except String Unit :=
  let bad : Except String Unit :=
    .error ("parsing time \x22" ++ s ++ "\x22 as \x222006-01-02\x22: cannot parse")
  match s.data with
  | [y1, y2, y3, y4, '-', m1, m2, '-', d1, d2] =>
    if [y1, y2, y3, y4, m1, m2, d1, d2].all Char.isDigit then
      let y := (y1.toNat - 48) * 1000 + (y2.toNat - 48) * 100 + (y3.toNat - 48) * 10 + (y4.toNat - 48)
      let m := (m1.toNat - 48) * 10 + (m2.toNat - 48)
      let d := (d1.toNat - 48) * 10 + (d2.toNat - 48)
      if 1 ≤ m && m ≤ 12 then
        if 1 ≤ d && d ≤ daysInMonth y m then .ok () else bad
      else bad
    else bad
  | _ => bad

/-- Value of a digit list as a natural number (no validity check; the callers
below check the digits themselves). -/
def decVal (cs : List Char) : Nat :=
  cs.foldl (fun acc c => acc * 10 + (c.toNat - 48)) 0

/-- strconv.ParseFloat restricted to ordinary decimal forms: an optional
sign, an integer part and/or a fractional part with at least one digit in
total, and an optional decimal exponent.  The special spellings inf,
infinity and nan (accepted case-insensitively by Go) are recognized as
successful parses; their non-finite values have no rational counterpart and
are mapped to 0, which is sound here because no claim depends on the numeric
value of a rating, only on parse success.  Hexadecimal float forms are not
modelled.  The float32 rounding Go performs on the parsed value is likewise
not modelled: the exact rational is carried. -/
def goParseFloat (s : String) : Except String Rat :=
  let err : Except String Rat :=
    .error ("strconv.ParseFloat: parsing \x22" ++ s ++ "\x22: invalid syntax")
  let mantissa : List Char → Except String Rat := fun cs =>
    let intPart := cs.takeWhile Char.isDigit
    let rest1 := cs.dropWhile Char.isDigit
    let parseExp : List Char → Rat → Except String Rat := fun ecs v =>
      match ecs with
      | [] => .ok v
      | 'e' :: es | 'E' :: es =>
        let signedDigits : List Char → Option (Bool × List Char) := fun l =>
          match l with
          | '+' :: ds => some (true, ds)
          | '-' :: ds => some (false, ds)
          | ds => some (true, ds)
        match signedDigits es with
        | some (pos, ds) =>
          if ds ≠ [] && ds.all Char.isDigit then
            let e := decVal ds
            .ok (if pos then v * (10 : Rat) ^ e else v / (10 : Rat) ^ e)
          else err
        | none => err
      | _ => err
    match rest1 with
    | '.' :: rest2 =>
      let fracPart := rest2.takeWhile Char.isDigit
      let rest3 := rest2.dropWhile Char.isDigit
      if intPart = [] && fracPart = [] then err
      else
        let v : Rat := (decVal intPart : Rat) +
          (decVal fracPart : Rat) / (10 : Rat) ^ fracPart.length
        parseExp rest3 v
    | _ =>
      if intPart = [] then err
      else parseExp rest1 (decVal intPart : Rat)
  let cs := s.data
  let lower := asciiLower s
  if lower = "inf" || lower = "+inf" || lower = "-inf" ||
     lower = "infinity" || lower = "+infinity" || lower = "-infinity" ||
     lower = "nan" then .ok 0
  else
    match cs with
    | '+' :: rest => mantissa rest
    | '-' :: rest => (mantissa rest).map Neg.neg
    | rest => mantissa rest

/-- Go's len() on a string: its byte count in UTF-8. -/
def goLen (s : String) : Nat := s.utf8ByteSize

/-! ## RPC payload types, mirroring the generated protobuf messages as the
handlers populate them.  Numeric protobuf fields of 32-bit width are carried
as Int after the explicit int32 conversion the source performs; float fields
are carried as Rat (see goParseFloat). -/

/-- kitchen/dish/order pb.Pagination, fields Limit and Offset (int32). -/
structure Pagination where
  limit : Int
  offset : Int

/-- pb.ID as used by the get/delete/nutrition handlers. -/
structure PbID where
  id : String

/-- kitchen pb.SearchDetails. -/
structure SearchDetails where
  query : String
  cuisineType : String
  rating : Rat
  pagination : Pagination

/-- order pb.Filter. -/
structure OrderFilter where
  kitchenId : String
  status : String
  pagination : Pagination

/-- review pb.Filter, with inline Limit and Offset fields. -/
structure ReviewFilter where
  kitchenId : String
  limit : Int
  offset : Int

/-- user pb.NewInfoNoID, the decoded body of an update-user request. -/
structure UserNewInfoNoID where
  fullName : String
  address : String
  phoneNumber : String

/-- user pb.NewInfo, the update-user RPC payload. -/
structure UserNewInfo where
  id : String
  fullName : String
  address : String
  phoneNumber : String

/-- kitchen pb.NewDataNoID, the decoded body of an update-kitchen request. -/
structure KitchenNewDataNoID where
  name : String
  description : String
  phoneNumber : String

/-- kitchen pb.NewData, the update-kitchen RPC payload. -/
structure KitchenNewData where
  id : String
  name : String
  description : String
  phoneNumber : String

/-- dish pb.NewData: both the type UpdateDish binds the request body into
(including its Id field, which the handler then overrides) and the RPC
payload it constructs. -/
structure DishNewData where
  id : String
  name : String
  price : Rat
  available : Bool

/-- order pb.StatusNoID, the decoded body of a change-status request. -/
structure StatusNoID where
  status : String

/-- order pb.Status, the change-status RPC payload. -/
structure OrderStatus where
  id : String
  status : String

/-- extra pb.Period, payload of the statistics and activity RPCs. -/
structure Period where
  id : String
  startDate : String
  endDate : String

/-- extra pb.WorkingHours; the schedule map decoded from the body is never
inspected by the gateway, so it is carried as an opaque JSON value. -/
structure WorkingHours where
  kitchenId : String
  schedule : Json

/-- payment pb.NewPayment, restricted to the fields the gateway reads; the
remaining proto fields are forwarded unchanged inside the same message and
play no role in any claim. -/
structure NewPayment where
  cardNumber : String
  expiryDate : String
  cvv : String

/-! ## Handler models.

Each function mirrors one gin handler body.  Parameters: the raw path and
query parameter strings the handler extracts, the result of
c.ShouldBindJSON for handlers that decode a body (an oracle: either the
decoded value or the bind error text), and the result of the backend RPC
(an oracle: either the response body, forwarded verbatim on success, or the
transport/application error text).  Create-style handlers whose body is
decoded and forwarded without inspection carry the body as opaque Json. -/

/-- GetUser (src/api/handler/user.go): GET /users/:id. -/
def getUser (id : String) (rpc : Except String Json) : HResult PbID :=
  match goUuidParse id with
  | .error e => .reject 400 (errBody (wrapErr "invalid user id" e))
  | .ok _ =>
    let call : GrpcCall PbID := ⟨5, ⟨id⟩⟩
    match rpc with
    | .error e => .respond call 500 (errBody (wrapErr "error getting user" e))
    | .ok body => .respond call 200 body

/-- UpdateUser (src/api/handler/user.go): PUT /users/:id.  The RPC payload's
Id is the validated path parameter; the other fields come from the body. -/
def updateUser (id : String) (decoded : Except String UserNewInfoNoID)
    (rpc : Except String Json) : HResult UserNewInfo :=
  match goUuidParse id with
  | .error e => .reject 400 (errBody (wrapErr "invalid user id" e))
  | .ok _ =>
    match decoded with
    | .error e => .reject 400 (errBody (wrapErr "invalid user data" e))
    | .ok d =>
      let call : GrpcCall UserNewInfo := ⟨5, ⟨id, d.fullName, d.address, d.phoneNumber⟩⟩
      match rpc with
      | .error e => .respond call 500 (errBody (wrapErr "error updating user" e))
      | .ok body => .respond call 200 body

/-- DeleteUser (src/api/handler/user.go): DELETE /users/:id. -/
def deleteUser (id : String) (rpc : Except String Json) : HResult PbID :=
  match goUuidParse id with
  | .error e => .reject 400 (errBody (wrapErr "invalid user id" e))
  | .ok _ =>
    let call : GrpcCall PbID := ⟨5, ⟨id⟩⟩
    match rpc with
    | .error e => .respond call 500 (errBody (wrapErr "error deleting user" e))
    | .ok _ => .respond call 200 (Json.str "User deleted successfully")

/-- GetStatistics (src/api/handler/handler.go): GET /kitchens/:id/statistics.
Validates the kitchen id and both dates, then calls the extra service under a
10 second deadline. -/
def getStatistics (id startDate endDate : String) (rpc : Except String Json) :
    HResult Period :=
  match goUuidParse id with
  | .error e => .reject 400 (errBody (wrapErr "invalid kitchen id" e))
  | .ok _ =>
    match goParseDate startDate with
    | .error e => .reject 400 (errBody (wrapErr "invalid start date" e))
    | .ok _ =>
      match goParseDate endDate with
      | .error e => .reject 400 (errBody (wrapErr "invalid end date" e))
      | .ok _ =>
        let call : GrpcCall Period := ⟨10, ⟨id, startDate, endDate⟩⟩
        match rpc with
        | .error e => .respond call 500 (errBody (wrapErr "error getting statistics" e))
        | .ok body => .respond call 200 body

/-- TrackActivity (src/api/handler/handler.go): GET /users/:id/activity.
Same shape as GetStatistics, 10 second deadline. -/
def trackActivity (id startDate endDate : String) (rpc : Except String Json) :
    HResult Period :=
  match goUuidParse id with
  | .error e => .reject 400 (errBody (wrapErr "invalid user id" e))
  | .ok _ =>
    match goParseDate startDate with
    | .error e => .reject 400 (errBody (wrapErr "invalid start date" e))
    | .ok _ =>
      match goParseDate endDate with
      | .error e => .reject 400 (errBody (wrapErr "invalid end date" e))
      | .ok _ =>
        let call : GrpcCall Period := ⟨10, ⟨id, startDate, endDate⟩⟩
        match rpc with
        | .error e => .respond call 500 (errBody (wrapErr "error tracking activity" e))
        | .ok body => .respond call 200 body

/-- SetWorkingHours (src/api/handler/handler.go): POST
/kitchens/:id/working-hours.  Note the 5 second deadline in the source. -/
def setWorkingHours (id : String) (decoded : Except String Json)
    (rpc : Except String Json) : HResult WorkingHours :=
  match goUuidParse id with
  | .error e => .reject 400 (errBody (wrapErr "invalid kitchen id" e))
  | .ok _ =>
    match decoded with
    | .error e => .reject 400 (errBody (wrapErr "invalid data" e))
    | .ok schedule =>
      let call : GrpcCall WorkingHours := ⟨5, ⟨id, schedule⟩⟩
      match rpc with
      | .error e => .respond call 500 (errBody (wrapErr "error setting working hours" e))
      | .ok body => .respond call 200 body

/-- GetNutrition (src/api/handler/handler.go): GET /dishes/:id/nutrition.
Note the 5 second deadline in the source. -/
def getNutrition (id : String) (rpc : Except String Json) : HResult PbID :=
  match goUuidParse id with
  | .error e => .reject 400 (errBody (wrapErr "invalid dish id" e))
  | .ok _ =>
    let call : GrpcCall PbID := ⟨5, ⟨id⟩⟩
    match rpc with
    | .error e =>
      .respond call 500 (errBody (wrapErr "error getting dish's nutritional info" e))
    | .ok body => .respond call 200 body

/-- CreateKitchen (src/api/handler/kitchen.go): POST /kitchens.  The decoded
body (kitchen pb.CreateRequest) is forwarded without inspection. -/
def createKitchen (decoded : Except String Json) (rpc : Except String Json) :
    HResult Json :=
  match decoded with
  | .error e => .reject 400 (errBody (wrapErr "invalid kitchen data" e))
  | .ok d =>
    let call : GrpcCall Json := ⟨5, d⟩
    match rpc with
    | .error e => .respond call 500 (errBody (wrapErr "error creating kitchen" e))
    | .ok body => .respond call 200 body

/-- GetKitchen (src/api/handler/kitchen.go): GET /kitchens/:id. -/
def getKitchen (id : String) (rpc : Except String Json) : HResult PbID :=
  match goUuidParse id with
  | .error e => .reject 400 (errBody (wrapErr "invalid kitchen id" e))
  | .ok _ =>
    let call : GrpcCall PbID := ⟨5, ⟨id⟩⟩
    match rpc with
    | .error e => .respond call 500 (errBody (wrapErr "error getting kitchen" e))
    | .ok body => .respond call 200 body

/-- UpdateKitchen (src/api/handler/kitchen.go): PUT /kitchens/:id. -/
def updateKitchen (id : String) (decoded : Except String KitchenNewDataNoID)
    (rpc : Except String Json) : HResult KitchenNewData :=
  match goUuidParse id with
  | .error e => .reject 400 (errBody (wrapErr "invalid kitchen id" e))
  | .ok _ =>
    match decoded with
    | .error e => .reject 400 (errBody (wrapErr "invalid kitchen data" e))
    | .ok d =>
      let call : GrpcCall KitchenNewData := ⟨5, ⟨id, d.name, d.description, d.phoneNumber⟩⟩
      match rpc with
      | .error e => .respond call 500 (errBody (wrapErr "error updating kitchen" e))
      | .ok body => .respond call 200 body

/-- DeleteKitchen (src/api/handler/kitchen.go): DELETE /kitchens/:id. -/
def deleteKitchen (id : String) (rpc : Except String Json) : HResult PbID :=
  match goUuidParse id with
  | .error e => .reject 400 (errBody (wrapErr "invalid kitchen id" e))
  | .ok _ =>
    let call : GrpcCall PbID := ⟨5, ⟨id⟩⟩
    match rpc with
    | .error e => .respond call 500 (errBody (wrapErr "error deleting kitchen" e))
    | .ok _ => .respond call 200 (Json.str "Kitchen deleted successfully")

/-- FetchKitchens (src/api/handler/kitchen.go): GET /kitchens.  Atoi on page
and limit, then KitchenClient.Fetch with limit = int32(l),
offset = int32((p-1)*l), under a 5 second deadline. -/
def fetchKitchens (page limit : String) (rpc : Except String Json) :
    HResult Pagination :=
  match goAtoi page with
  | .error e => .reject 400 (errBody (wrapErr "invalid pagination parameters" e))
  | .ok p =>
    match goAtoi limit with
    | .error e => .reject 400 (errBody (wrapErr "invalid pagination parameters" e))
    | .ok l =>
      let call : GrpcCall Pagination := ⟨5, ⟨int32 l, int32 ((p - 1) * l)⟩⟩
      match rpc with
      | .error e => .respond call 500 (errBody (wrapErr "error fetching kitchens" e))
      | .ok body => .respond call 200 body

/-- The straight-line tail of SearchKitchens after the filter checks
(src/api/handler/kitchen.go lines 281-321): pagination parsing, then
KitchenClient.Search with the accumulated ratingFloat value, under a
5 second deadline. -/
def searchProceed (query cuisineType : String) (ratingFloat : Rat)
    (page limit : String) (rpc : Except String Json) : HResult SearchDetails :=
  match goAtoi page with
  | .error e => .reject 400 (errBody (wrapErr "invalid pagination parameters" e))
  | .ok p =>
    match goAtoi limit with
    | .error e => .reject 400 (errBody (wrapErr "invalid pagination parameters" e))
    | .ok l =>
      let call : GrpcCall SearchDetails :=
        ⟨5, ⟨query, cuisineType, ratingFloat, ⟨int32 l, int32 ((p - 1) * l)⟩⟩⟩
      match rpc with
      | .error e => .respond call 500 (errBody (wrapErr "error searching kitchens" e))
      | .ok body => .respond call 200 body

/-- SearchKitchens (src/api/handler/kitchen.go): GET /kitchens/search.
Rejects when query, cuisine_type and rating are all empty; parses the rating
when present (ratingFloat stays 0 when absent); then continues with
searchProceed. -/
def searchKitchens (query cuisineType rating page limit : String)
    (rpc : Except String Json) : HResult SearchDetails :=
  if query == "" && cuisineType == "" && rating == "" then
    .reject 400 (errBody "invalid search parameters")
  else if rating != "" then
    match goParseFloat rating with
    | .error e => .reject 400 (errBody (wrapErr "invalid search parameters" e))
    | .ok r => searchProceed query cuisineType r page limit rpc
  else searchProceed query cuisineType 0 page limit rpc

/-- CreateOrder (src/api/handler/order.go): POST /orders.  The decoded body
(order pb.NewOrder) is forwarded without inspection. -/
def createOrder (decoded : Except String Json) (rpc : Except String Json) :
    HResult Json :=
  match decoded with
  | .error e => .reject 400 (errBody (wrapErr "invalid order data" e))
  | .ok d =>
    let call : GrpcCall Json := ⟨5, d⟩
    match rpc with
    | .error e => .respond call 500 (errBody (wrapErr "error creating order" e))
    | .ok body => .respond call 200 body

/-- GetOrderByID (src/api/handler/order.go): GET /orders/:id. -/
def getOrderByID (id : String) (rpc : Except String Json) : HResult PbID :=
  match goUuidParse id with
  | .error e => .reject 400 (errBody (wrapErr "invalid order id" e))
  | .ok _ =>
    let call : GrpcCall PbID := ⟨5, ⟨id⟩⟩
    match rpc with
    | .error e => .respond call 500 (errBody (wrapErr "error getting order" e))
    | .ok body => .respond call 200 body

/-- ChangeStatus (src/api/handler/order.go): PUT /orders/:id/status. -/
def changeStatus (id : String) (decoded : Except String StatusNoID)
    (rpc : Except String Json) : HResult OrderStatus :=
  match goUuidParse id with
  | .error e => .reject 400 (errBody (wrapErr "invalid order id" e))
  | .ok _ =>
    match decoded with
    | .error e => .reject 400 (errBody (wrapErr "invalid order data" e))
    | .ok d =>
      let call : GrpcCall OrderStatus := ⟨5, ⟨id, d.status⟩⟩
      match rpc with
      | .error e => .respond call 500 (errBody (wrapErr "error changing order status" e))
      | .ok body => .respond call 200 body

/-- FetchOrdersForCustomer (src/api/handler/order.go): GET /orders. -/
def fetchOrdersForCustomer (page limit : String) (rpc : Except String Json) :
    HResult Pagination :=
  match goAtoi page with
  | .error e => .reject 400 (errBody (wrapErr "invalid pagination parameters" e))
  | .ok p =>
    match goAtoi limit with
    | .error e => .reject 400 (errBody (wrapErr "invalid pagination parameters" e))
    | .ok l =>
      let call : GrpcCall Pagination := ⟨5, ⟨int32 l, int32 ((p - 1) * l)⟩⟩
      match rpc with
      | .error e => .respond call 500 (errBody (wrapErr "error getting orders" e))
      | .ok body => .respond call 200 body

/-- FetchOrdersForKitchen (src/api/handler/order.go): GET
/kitchens/:id/orders.  The path parameter is a kitchen id but the uuid
failure branch in the source says "invalid dish ID". -/
def fetchOrdersForKitchen (kitchenID status page limit : String)
    (rpc : Except String Json) : HResult OrderFilter :=
  match goUuidParse kitchenID with
  | .error e => .reject 400 (errBody (wrapErr "invalid dish ID" e))
  | .ok _ =>
    match goAtoi page with
    | .error e => .reject 400 (errBody (wrapErr "invalid pagination parameters" e))
    | .ok p =>
      match goAtoi limit with
      | .error e => .reject 400 (errBody (wrapErr "invalid pagination parameters" e))
      | .ok l =>
        let call : GrpcCall OrderFilter :=
          ⟨5, ⟨kitchenID, status, ⟨int32 l, int32 ((p - 1) * l)⟩⟩⟩
        match rpc with
        | .error e => .respond call 500 (errBody (wrapErr "error getting orders" e))
        | .ok body => .respond call 200 body

/-- CreateDish (src/api/handler/order.go, dish section): POST /dishes. -/
def createDish (decoded : Except String Json) (rpc : Except String Json) :
    HResult Json :=
  match decoded with
  | .error e => .reject 400 (errBody (wrapErr "invalid dish data" e))
  | .ok d =>
    let call : GrpcCall Json := ⟨5, d⟩
    match rpc with
    | .error e => .respond call 500 (errBody (wrapErr "error creating dish" e))
    | .ok body => .respond call 200 body

/-- GetDish: GET /dishes/:id. -/
def getDish (id : String) (rpc : Except String Json) : HResult PbID :=
  match goUuidParse id with
  | .error e => .reject 400 (errBody (wrapErr "invalid dish ID" e))
  | .ok _ =>
    let call : GrpcCall PbID := ⟨5, ⟨id⟩⟩
    match rpc with
    | .error e => .respond call 500 (errBody (wrapErr "error getting dish" e))
    | .ok body => .respond call 200 body

/-- UpdateDish: PUT /dishes/:id.  The body is bound into dish pb.NewData
(which contains an Id field), but the RPC payload is rebuilt with the path
id, so any body-supplied id is discarded. -/
def updateDish (id : String) (decoded : Except String DishNewData)
    (rpc : Except String Json) : HResult DishNewData :=
  match goUuidParse id with
  | .error e => .reject 400 (errBody (wrapErr "invalid dish ID" e))
  | .ok _ =>
    match decoded with
    | .error e => .reject 400 (errBody (wrapErr "invalid dish data" e))
    | .ok d =>
      let call : GrpcCall DishNewData := ⟨5, ⟨id, d.name, d.price, d.available⟩⟩
      match rpc with
      | .error e => .respond call 500 (errBody (wrapErr "error updating dish" e))
      | .ok body => .respond call 200 body

/-- DeleteDish: DELETE /dishes/:id. -/
def deleteDish (id : String) (rpc : Except String Json) : HResult PbID :=
  match goUuidParse id with
  | .error e => .reject 400 (errBody (wrapErr "invalid dish ID" e))
  | .ok _ =>
    let call : GrpcCall PbID := ⟨5, ⟨id⟩⟩
    match rpc with
    | .error e => .respond call 500 (errBody (wrapErr "error deleting dish" e))
    | .ok _ => .respond call 200 (Json.str "Dish deleted successfully")

/-- FetchDishes: GET /kitchens/:id/dishes.  The route carries a kitchen id
path parameter, but the source handler never reads c.Param("id"): it neither
validates the id nor includes it in the RPC payload (dish pb.Pagination
only).  The parameter is kept here to represent the path parameter present
on the route; the body does not use it, exactly like the source. -/
def fetchDishes (_id page limit : String) (rpc : Except String Json) :
    HResult Pagination :=
  match goAtoi page with
  | .error e => .reject 400 (errBody (wrapErr "invalid pagination parameters" e))
  | .ok p =>
    match goAtoi limit with
    | .error e => .reject 400 (errBody (wrapErr "invalid pagination parameters" e))
    | .ok l =>
      let call : GrpcCall Pagination := ⟨5, ⟨int32 l, int32 ((p - 1) * l)⟩⟩
      match rpc with
      | .error e => .respond call 500 (errBody (wrapErr "error getting dishes" e))
      | .ok body => .respond call 200 body

/-- CreateReview (src/api/handler/review.go): POST /reviews. -/
def createReview (decoded : Except String Json) (rpc : Except String Json) :
    HResult Json :=
  match decoded with
  | .error e => .reject 400 (errBody (wrapErr "invalid review data" e))
  | .ok d =>
    let call : GrpcCall Json := ⟨5, d⟩
    match rpc with
    | .error e => .respond call 500 (errBody (wrapErr "failed to create review" e))
    | .ok body => .respond call 200 body

/-- GetReviews (src/api/handler/review.go): GET /kitchens/:id/reviews.  The
path parameter is a kitchen id but the uuid failure branch in the source
says "invalid dish ID". -/
def getReviews (kitchenID page limit : String) (rpc : Except String Json) :
    HResult ReviewFilter :=
  match goUuidParse kitchenID with
  | .error e => .reject 400 (errBody (wrapErr "invalid dish ID" e))
  | .ok _ =>
    match goAtoi page with
    | .error e => .reject 400 (errBody (wrapErr "invalid pagination parameters" e))
    | .ok p =>
      match goAtoi limit with
      | .error e => .reject 400 (errBody (wrapErr "invalid pagination parameters" e))
      | .ok l =>
        let call : GrpcCall ReviewFilter := ⟨5, ⟨kitchenID, int32 l, int32 ((p - 1) * l)⟩⟩
        match rpc with
        | .error e => .respond call 500 (errBody (wrapErr "error getting reviews" e))
        | .ok body => .respond call 200 body

/-- CreatePayment (src/unnamed/part_000, payment handler): POST /payments.
Empty card number, expiry date and CVV are not errors; when present their
byte lengths must be exactly 16, 5 and 3.  The whole decoded message is
forwarded as the RPC payload. -/
def createPayment (decoded : Except String NewPayment)
    (rpc : Except String Json) : HResult NewPayment :=
  match decoded with
  | .error e => .reject 400 (errBody (wrapErr "invalid payment data" e))
  | .ok d =>
    if d.cardNumber != "" && goLen d.cardNumber != 16 then
      .reject 400 (errBody "invalid card number")
    else if d.expiryDate != "" && goLen d.expiryDate != 5 then
      .reject 400 (errBody "invalid expiry date")
    else if d.cvv != "" && goLen d.cvv != 3 then
      .reject 400 (errBody "invalid CVV")
    else
      let call : GrpcCall NewPayment := ⟨5, d⟩
      match rpc with
      | .error e => .respond call 500 (errBody (wrapErr "error creating payment" e))
      | .ok body => .respond call 200 body

/-- GetPayment (src/unnamed/part_000, payment handler): GET /payments/:id. -/
def getPayment (id : String) (rpc : Except String Json) : HResult PbID :=
  match goUuidParse id with
  | .error e => .reject 400 (errBody (wrapErr "invalid payment id" e))
  | .ok _ =>
    let call : GrpcCall PbID := ⟨5, ⟨id⟩⟩
    match rpc with
    | .error e => .respond call 500 (errBody (wrapErr "error getting payment" e))
    | .ok body => .respond call 200 body

/-! ## Auth middleware and route table -/

/-- A parsed JWT, as far as the middleware inspects one: only its Valid
flag. -/
structure GoToken where
  valid : Bool

/-- The hard-coded signing secret from src/api/middleware/middleware.go. -/
def signingkey : String := "hello world"

/-- Check (src/api/middleware/middleware.go).  Returns some (status, body)
when the middleware aborts the request, none when it calls c.Next() and the
matched handler runs.  jwtParse abstracts jwt.Parse with the keyfunc that
returns signingkey; its cryptographic behaviour is irrelevant to the claims,
which quantify over it. -/
def check (jwtParse : String → Except String GoToken) (authHeader : String) :
    Option (Nat × Json) :=
  if authHeader == "" then
    some (401, errBody "Authorization header is required")
  else
    match jwtParse authHeader with
    | .error _ => some (401, errBody "Token could not be parsed")
    | .ok token =>
      if !token.valid then some (401, errBody "Invalid token provided")
      else none

/-- The dispatcher operations NewRouter (src/unnamed/part_001) attaches to
routes.  Constructor names match the handler methods. -/
inductive Op where
  | getUser | updateUser | deleteUser | trackActivity
  | createKitchen | getKitchen | updateKitchen | deleteKitchen
  | fetchKitchens | searchKitchens
  | fetchDishes | fetchOrdersForKitchen | getReviews
  | getStatistics | setWorkingHours
  | createDish | getDish | updateDish | deleteDish | getNutrition
  | createOrder | getOrderByID | changeStatus | fetchOrdersForCustomer
  | createReview
  | createPayment | getPayment
deriving DecidableEq

/-- The route table installed by NewRouter (src/unnamed/part_001): every
route below is registered on the /local-eats group, which carries
middleware.Check; only the swagger route (not a resource route) sits outside
the group. -/
def routeTable : List (String × String × Op) :=
  [ ("GET", "/local-eats/users/:id", .getUser),
    ("PUT", "/local-eats/users/:id", .updateUser),
    ("DELETE", "/local-eats/users/:id", .deleteUser),
    ("GET", "/local-eats/users/:id/activity", .trackActivity),
    ("POST", "/local-eats/kitchens", .createKitchen),
    ("GET", "/local-eats/kitchens/:id", .getKitchen),
    ("PUT", "/local-eats/kitchens/:id", .updateKitchen),
    ("DELETE", "/local-eats/kitchens/:id", .deleteKitchen),
    ("GET", "/local-eats/kitchens", .fetchKitchens),
    ("GET", "/local-eats/kitchens/search", .searchKitchens),
    ("GET", "/local-eats/kitchens/:id/dishes", .fetchDishes),
    ("GET", "/local-eats/kitchens/:id/orders", .fetchOrdersForKitchen),
    ("GET", "/local-eats/kitchens/:id/reviews", .getReviews),
    ("GET", "/local-eats/kitchens/:id/statistics", .getStatistics),
    ("POST", "/local-eats/kitchens/:id/working-hours", .setWorkingHours),
    ("POST", "/local-eats/dishes", .createDish),
    ("GET", "/local-eats/dishes/:id", .getDish),
    ("PUT", "/local-eats/dishes/:id", .updateDish),
    ("DELETE", "/local-eats/dishes/:id", .deleteDish),
    ("GET", "/local-eats/dishes/:id/nutrition", .getNutrition),
    ("POST", "/local-eats/orders", .createOrder),
    ("GET", "/local-eats/orders/:id", .getOrderByID),
    ("PUT", "/local-eats/orders/:id/status", .changeStatus),
    ("GET", "/local-eats/orders", .fetchOrdersForCustomer),
    ("POST", "/local-eats/reviews", .createReview),
    ("POST", "/local-eats/payments", .createPayment),
    ("GET", "/local-eats/payments/:id", .getPayment) ]

/-- Serving one request on a protected route: gin runs the group middleware
first; only if it calls c.Next() does the matched dispatcher run.  The
dispatcher is an arbitrary function here, so a theorem quantifying over it
establishes that no dispatcher logic can run once the middleware aborts. -/
def serve (jwtParse : String → Except String GoToken)
    (dispatch : Op → Nat × Json) (route : String × String × Op)
    (authHeader : String) : Nat × Json :=
  match check jwtParse authHeader with
  | some resp => resp
  | none => dispatch route.2.2

/-! ## Connection handles and the nil-client behaviour -/

/-- Outcome of a request including the Go runtime behaviour around the
client handle: either the handler ran with a usable client, or the handler
reached a method call on a nil client interface, which panics and is caught
by the Recovery middleware installed by gin.Default() (src/unnamed/part_001
line 27), producing a 500 response with no body and no RPC. -/
inductive RunOut (Req : Type) where
  | handled (r : HResult Req) : RunOut Req
  | recovered : RunOut Req

/-- The (status, body) pair of a handler outcome. -/
def HResult.http {Req : Type} : HResult Req → Nat × Json
  | .reject s b => (s, b)
  | .respond _ s b => (s, b)

/-- The HTTP response of a full run; a recovered panic is a 500 with an
empty body (Recovery aborts with the status only). -/
def RunOut.http {Req : Type} : RunOut Req → Nat × Json
  | .handled r => r.http
  | .recovered => (500, Json.null)

/-- The RPC attempted during a full run, if any; a nil-client panic happens
at the call site before any network activity, so no call is recorded. -/
def RunOut.callOf {Req : Type} : RunOut Req → Option (GrpcCall Req)
  | .handled r => r.callOf
  | .recovered => none

/-- GetUser composed with the client acquisition of NewHandler /
NewUserClient (src/unnamed/part_000): when grpc.NewClient failed at startup
the stored UserClient is nil and is never re-checked; the handler still
validates the id first (400 on a bad id), and otherwise invokes
GetProfile on the nil interface, which panics.  A usable client behaves as
the plain handler with the given RPC oracle. -/
def getUserWithClient (client : Option (Except String Json)) (id : String) :
    RunOut PbID :=
  match goUuidParse id with
  | .error e => .handled (.reject 400 (errBody (wrapErr "invalid user id" e)))
  | .ok _ =>
    match client with
    | none => .recovered
    | some rpc => .handled (getUser id rpc)

/-! ## Helper lemmas -/

/-- int32 is the identity on values already representable in 32 bits. -/
theorem int32_eq_self {n : Int} (h1 : -2147483648 ≤ n) (h2 : n < 2147483648) :
    int32 n = n := by
  unfold int32
  omega

/-- Length of a wrapped error message. -/
theorem wrapErr_length (c e : String) :
    (wrapErr c e).length = c.length + 2 + e.length := by
  have h2 : (": " : String).length = 2 := rfl
  simp [wrapErr, String.length_append, h2]

/-- Two rejections whose envelope messages have different lengths are
different outcomes. -/
theorem reject_ne_of_length {Req : Type} {s1 s2 : Nat} {m1 m2 : String}
    (h : m1.length ≠ m2.length) :
    (HResult.reject s1 (errBody m1) : HResult Req) ≠ HResult.reject s2 (errBody m2) := by
  intro hEq
  simp only [errBody, HResult.reject.injEq, Json.obj.injEq, List.cons.injEq,
    Prod.mk.injEq, Json.str.injEq] at hEq
  exact h (by rw [hEq.2.1.2])

/-- C1: for every listing operation (fetch kitchens, search kitchens, fetch
dishes, fetch orders for customer, fetch orders for kitchen, get reviews),
page and limit are converted to the RPC pair (limit, offset) with
offset = (page - 1) * limit, whenever both RPC fields are representable in
int32 (they are int32 protobuf fields). -/
theorem pagination_offset_conversion
    (sp sl : String) (p l : Int)
    (hp : goAtoi sp = .ok p) (hl : goAtoi sl = .ok l)
    (hl1 : -2147483648 ≤ l) (hl2 : l < 2147483648)
    (ho1 : -2147483648 ≤ (p - 1) * l) (ho2 : (p - 1) * l < 2147483648) :
    (∀ rpc, (fetchKitchens sp sl rpc).callOf = some ⟨5, ⟨l, (p - 1) * l⟩⟩) ∧
    (∀ q ct rpc, q ≠ "" →
      (searchKitchens q ct "" sp sl rpc).callOf =
        some ⟨5, ⟨q, ct, 0, ⟨l, (p - 1) * l⟩⟩⟩) ∧
    (∀ pid rpc, (fetchDishes pid sp sl rpc).callOf = some ⟨5, ⟨l, (p - 1) * l⟩⟩) ∧
    (∀ rpc, (fetchOrdersForCustomer sp sl rpc).callOf = some ⟨5, ⟨l, (p - 1) * l⟩⟩) ∧
    (∀ kid st rpc, goUuidParse kid = .ok () →
      (fetchOrdersForKitchen kid st sp sl rpc).callOf =
        some ⟨5, ⟨kid, st, ⟨l, (p - 1) * l⟩⟩⟩) ∧
    (∀ kid rpc, goUuidParse kid = .ok () →
      (getReviews kid sp sl rpc).callOf = some ⟨5, ⟨kid, l, (p - 1) * l⟩⟩) := by
  have e32l : int32 l = l := int32_eq_self hl1 hl2
  have e32o : int32 ((p - 1) * l) = (p - 1) * l := int32_eq_self ho1 ho2
  refine ⟨?_, ?_, ?_, ?_, ?_, ?_⟩
  · intro rpc
    unfold fetchKitchens
    rw [hp, hl]
    cases rpc <;> simp [HResult.callOf, e32l, e32o]
  · intro q ct rpc hq
    unfold searchKitchens
    rw [if_neg (by simp [hq])]
    simp only [bne_self_eq_false, Bool.false_eq_true, if_false]
    unfold searchProceed
    rw [hp, hl]
    cases rpc <;> simp [HResult.callOf, e32l, e32o]
  · intro pid rpc
    unfold fetchDishes
    rw [hp, hl]
    cases rpc <;> simp [HResult.callOf, e32l, e32o]
  · intro rpc
    unfold fetchOrdersForCustomer
    rw [hp, hl]
    cases rpc <;> simp [HResult.callOf, e32l, e32o]
  · intro kid st rpc hkid
    unfold fetchOrdersForKitchen
    rw [hkid, hp, hl]
    cases rpc <;> simp [HResult.callOf, e32l, e32o]
  · intro kid rpc hkid
    unfold getReviews
    rw [hkid, hp, hl]
    cases rpc <;> simp [HResult.callOf, e32l, e32o]

/-- Witness for C1 at the spec's example inputs: page=2, limit=10 gives
limit=10, offset=10; page=1, limit=5 gives offset=0. -/
theorem pagination_offset_conversion_witness :
    (fetchKitchens "2" "10" (Except.ok Json.null)).callOf = some ⟨5, ⟨10, 10⟩⟩ ∧
    (fetchOrdersForCustomer "1" "5" (Except.ok Json.null)).callOf = some ⟨5, ⟨5, 0⟩⟩ := by
  have h1 := pagination_offset_conversion "2" "10" 2 10 rfl rfl
    (by decide) (by decide) (by decide) (by decide)
  have h2 := pagination_offset_conversion "1" "5" 1 5 rfl rfl
    (by decide) (by decide) (by decide) (by decide)
  constructor
  · have := h1.1 (Except.ok Json.null)
    simpa using this
  · have := h2.2.2.2.1 (Except.ok Json.null)
    simpa using this

/-- C2 counterexample: page "-3" parses as an integer that is not positive;
the claim requires HTTP 400 with a ValidationError, but FetchKitchens
forwards it to the backend (offset (−3−1)·10 = −40) and answers 200. -/
theorem pagination_positivity_counterexample :
    fetchKitchens "-3" "10" (Except.ok Json.null) =
      HResult.respond ⟨5, ⟨10, -40⟩⟩ 200 Json.null ∧
    (fetchKitchens "-3" "10" (Except.ok Json.null)).statusOf = 200 := ⟨rfl, rfl⟩

/-- C2 amended: page and limit must each parse under strconv.Atoi (optional
sign, digits, int64 range); a parse failure of either yields 400 with a
ValidationError and no backend call; every value that parses — including
zero and negative values — is forwarded with no positivity check and no
clamping, truncated to int32 in the RPC fields. -/
theorem pagination_parse_forwarding (sp sl : String) :
    (∀ e rpc, goAtoi sp = .error e →
      fetchKitchens sp sl rpc =
        .reject 400 (errBody (wrapErr "invalid pagination parameters" e)) ∧
      fetchOrdersForCustomer sp sl rpc =
        .reject 400 (errBody (wrapErr "invalid pagination parameters" e)) ∧
      (∀ pid, fetchDishes pid sp sl rpc =
        .reject 400 (errBody (wrapErr "invalid pagination parameters" e))) ∧
      (∀ kid st, goUuidParse kid = .ok () →
        fetchOrdersForKitchen kid st sp sl rpc =
          .reject 400 (errBody (wrapErr "invalid pagination parameters" e))) ∧
      (∀ kid, goUuidParse kid = .ok () →
        getReviews kid sp sl rpc =
          .reject 400 (errBody (wrapErr "invalid pagination parameters" e))) ∧
      (∀ q ct, q ≠ "" →
        searchKitchens q ct "" sp sl rpc =
          .reject 400 (errBody (wrapErr "invalid pagination parameters" e)))) ∧
    (∀ p e rpc, goAtoi sp = .ok p → goAtoi sl = .error e →
      fetchKitchens sp sl rpc =
        .reject 400 (errBody (wrapErr "invalid pagination parameters" e)) ∧
      fetchOrdersForCustomer sp sl rpc =
        .reject 400 (errBody (wrapErr "invalid pagination parameters" e)) ∧
      (∀ pid, fetchDishes pid sp sl rpc =
        .reject 400 (errBody (wrapErr "invalid pagination parameters" e))) ∧
      (∀ kid st, goUuidParse kid = .ok () →
        fetchOrdersForKitchen kid st sp sl rpc =
          .reject 400 (errBody (wrapErr "invalid pagination parameters" e))) ∧
      (∀ kid, goUuidParse kid = .ok () →
        getReviews kid sp sl rpc =
          .reject 400 (errBody (wrapErr "invalid pagination parameters" e))) ∧
      (∀ q ct, q ≠ "" →
        searchKitchens q ct "" sp sl rpc =
          .reject 400 (errBody (wrapErr "invalid pagination parameters" e)))) ∧
    (∀ p l rpc, goAtoi sp = .ok p → goAtoi sl = .ok l →
      (fetchKitchens sp sl rpc).callOf =
        some ⟨5, ⟨int32 l, int32 ((p - 1) * l)⟩⟩ ∧
      (fetchOrdersForCustomer sp sl rpc).callOf =
        some ⟨5, ⟨int32 l, int32 ((p - 1) * l)⟩⟩ ∧
      (∀ pid, (fetchDishes pid sp sl rpc).callOf =
        some ⟨5, ⟨int32 l, int32 ((p - 1) * l)⟩⟩) ∧
      (∀ kid st, goUuidParse kid = .ok () →
        (fetchOrdersForKitchen kid st sp sl rpc).callOf =
          some ⟨5, ⟨kid, st, ⟨int32 l, int32 ((p - 1) * l)⟩⟩⟩) ∧
      (∀ kid, goUuidParse kid = .ok () →
        (getReviews kid sp sl rpc).callOf =
          some ⟨5, ⟨kid, int32 l, int32 ((p - 1) * l)⟩⟩) ∧
      (∀ q ct, q ≠ "" →
        (searchKitchens q ct "" sp sl rpc).callOf =
          some ⟨5, ⟨q, ct, 0, ⟨int32 l, int32 ((p - 1) * l)⟩⟩⟩)) := by
  refine ⟨?_, ?_, ?_⟩
  · intro e rpc hp
    refine ⟨?_, ?_, fun pid => ?_, fun kid st hkid => ?_, fun kid hkid => ?_,
      fun q ct hq => ?_⟩
    · simp [fetchKitchens, hp]
    · simp [fetchOrdersForCustomer, hp]
    · simp [fetchDishes, hp]
    · simp [fetchOrdersForKitchen, hkid, hp]
    · simp [getReviews, hkid, hp]
    · unfold searchKitchens
      rw [if_neg (by simp [hq])]
      simp only [bne_self_eq_false, Bool.false_eq_true, if_false]
      simp [searchProceed, hp]
  · intro p e rpc hp hl
    refine ⟨?_, ?_, fun pid => ?_, fun kid st hkid => ?_, fun kid hkid => ?_,
      fun q ct hq => ?_⟩
    · simp [fetchKitchens, hp, hl]
    · simp [fetchOrdersForCustomer, hp, hl]
    · simp [fetchDishes, hp, hl]
    · simp [fetchOrdersForKitchen, hkid, hp, hl]
    · simp [getReviews, hkid, hp, hl]
    · unfold searchKitchens
      rw [if_neg (by simp [hq])]
      simp only [bne_self_eq_false, Bool.false_eq_true, if_false]
      simp [searchProceed, hp, hl]
  · intro p l rpc hp hl
    refine ⟨?_, ?_, fun pid => ?_, fun kid st hkid => ?_, fun kid hkid => ?_,
      fun q ct hq => ?_⟩
    · unfold fetchKitchens
      rw [hp, hl]
      cases rpc <;> simp [HResult.callOf]
    · unfold fetchOrdersForCustomer
      rw [hp, hl]
      cases rpc <;> simp [HResult.callOf]
    · unfold fetchDishes
      rw [hp, hl]
      cases rpc <;> simp [HResult.callOf]
    · unfold fetchOrdersForKitchen
      rw [hkid, hp, hl]
      cases rpc <;> simp [HResult.callOf]
    · unfold getReviews
      rw [hkid, hp, hl]
      cases rpc <;> simp [HResult.callOf]
    · unfold searchKitchens
      rw [if_neg (by simp [hq])]
      simp only [bne_self_eq_false, Bool.false_eq_true, if_false]
      unfold searchProceed
      rw [hp, hl]
      cases rpc <;> simp [HResult.callOf]

/-- Witness for C2 amended: a non-integer page is rejected with 400, and
the negative limit "-7" with page "0" is forwarded as limit=-7,
offset=(0-1)·(-7)=7. -/
theorem pagination_parse_forwarding_witness :
    fetchKitchens "abc" "10" (Except.ok Json.null) =
      HResult.reject 400 (errBody (wrapErr "invalid pagination parameters"
        "strconv.Atoi: parsing \x22abc\x22: invalid syntax")) ∧
    getReviews "6ba7b810-9dad-11d1-80b4-00c04fd430c8" "abc" "10"
        (Except.ok Json.null) =
      HResult.reject 400 (errBody (wrapErr "invalid pagination parameters"
        "strconv.Atoi: parsing \x22abc\x22: invalid syntax")) ∧
    (fetchKitchens "0" "-7" (Except.ok Json.null)).callOf = some ⟨5, ⟨-7, 7⟩⟩ := by
  refine ⟨?_, ?_, ?_⟩
  · exact ((pagination_parse_forwarding "abc" "10").1
      "strconv.Atoi: parsing \x22abc\x22: invalid syntax"
      (Except.ok Json.null) rfl).1
  · exact ((pagination_parse_forwarding "abc" "10").1
      "strconv.Atoi: parsing \x22abc\x22: invalid syntax"
      (Except.ok Json.null) rfl).2.2.2.2.1
      "6ba7b810-9dad-11d1-80b4-00c04fd430c8" rfl
  · have := ((pagination_parse_forwarding "0" "-7").2.2 0 (-7)
      (Except.ok Json.null) rfl rfl).1
    simpa using this

/-- C3: payment creation rejects with 400 a present card number whose byte
length is not 16, a present expiry date whose length is not 5 and a present
CVV whose length is not 3; an empty value for each field passes its check;
when all checks pass (in particular a card number of exactly 16 bytes) the
call is made and a backend failure surfaces as 500, a success as 200. -/
theorem payment_field_validation :
    (∀ d rpc, d.cardNumber ≠ "" → goLen d.cardNumber ≠ 16 →
      createPayment (.ok d) rpc = .reject 400 (errBody "invalid card number")) ∧
    (∀ d rpc, (d.cardNumber = "" ∨ goLen d.cardNumber = 16) →
      d.expiryDate ≠ "" → goLen d.expiryDate ≠ 5 →
      createPayment (.ok d) rpc = .reject 400 (errBody "invalid expiry date")) ∧
    (∀ d rpc, (d.cardNumber = "" ∨ goLen d.cardNumber = 16) →
      (d.expiryDate = "" ∨ goLen d.expiryDate = 5) →
      d.cvv ≠ "" → goLen d.cvv ≠ 3 →
      createPayment (.ok d) rpc = .reject 400 (errBody "invalid CVV")) ∧
    (∀ d e, (d.cardNumber = "" ∨ goLen d.cardNumber = 16) →
      (d.expiryDate = "" ∨ goLen d.expiryDate = 5) →
      (d.cvv = "" ∨ goLen d.cvv = 3) →
      createPayment (.ok d) (.error e) =
        .respond ⟨5, d⟩ 500 (errBody (wrapErr "error creating payment" e))) ∧
    (∀ d b, (d.cardNumber = "" ∨ goLen d.cardNumber = 16) →
      (d.expiryDate = "" ∨ goLen d.expiryDate = 5) →
      (d.cvv = "" ∨ goLen d.cvv = 3) →
      createPayment (.ok d) (.ok b) = .respond ⟨5, d⟩ 200 b) := by
  refine ⟨?_, ?_, ?_, ?_, ?_⟩
  · intro d rpc h1 h2
    simp [createPayment, h1, h2]
  · intro d rpc hc h1 h2
    rcases hc with hc | hc <;> simp [createPayment, hc, h1, h2]
  · intro d rpc hc he h1 h2
    rcases hc with hc | hc <;> rcases he with he | he <;>
      simp [createPayment, hc, he, h1, h2]
  · intro d e hc he hv
    rcases hc with hc | hc <;> rcases he with he | he <;> rcases hv with hv | hv <;>
      simp [createPayment, hc, he, hv]
  · intro d b hc he hv
    rcases hc with hc | hc <;> rcases he with he | he <;> rcases hv with hv | hv <;>
      simp [createPayment, hc, he, hv]

/-- Witness for C3: a 3-byte card number is rejected with 400; a 16-byte
card number passes validation and a backend failure surfaces as 500. -/
theorem payment_field_validation_witness :
    createPayment (.ok ⟨"123", "", ""⟩) (.ok Json.null) =
      .reject 400 (errBody "invalid card number") ∧
    createPayment (.ok ⟨"1234567890123456", "", ""⟩) (.error "rpc error") =
      .respond ⟨5, ⟨"1234567890123456", "", ""⟩⟩ 500
        (errBody (wrapErr "error creating payment" "rpc error")) := by
  constructor
  · exact payment_field_validation.1 ⟨"123", "", ""⟩ (.ok Json.null)
      (by decide) (by decide)
  · exact payment_field_validation.2.2.2.1 ⟨"1234567890123456", "", ""⟩ "rpc error"
      (Or.inr (by decide)) (Or.inl rfl) (Or.inl rfl)

/-- Helper for C4: a rejection carrying a wrapped message differs from a
rejection carrying a bare message of a different total length. -/
theorem wrap_ne_bare {Req : Type} {s1 s2 : Nat} (c e t : String)
    (h : c.length + 2 + e.length ≠ t.length) :
    (HResult.reject s1 (errBody (wrapErr c e)) : HResult Req) ≠
      HResult.reject s2 (errBody t) := by
  apply reject_ne_of_length
  rw [wrapErr_length]
  exact h

/-- Helper for C4: the pagination-and-call tail of the search handler never
produces the bare "invalid search parameters" rejection. -/
theorem searchProceed_ne_bare (q ct : String) (rf : Rat) (pg lim : String)
    (rpc : Except String Json) :
    searchProceed q ct rf pg lim rpc ≠
      HResult.reject 400 (errBody "invalid search parameters") := by
  have lenS : ("invalid search parameters" : String).length = 25 := rfl
  have lenP : ("invalid pagination parameters" : String).length = 29 := rfl
  unfold searchProceed
  split
  · exact wrap_ne_bare _ _ _ (by rw [lenP, lenS]; omega)
  · split
    · exact wrap_ne_bare _ _ _ (by rw [lenP, lenS]; omega)
    · split <;> exact fun h => HResult.noConfusion h

/-- C4: kitchen search with query, cuisine_type and rating all empty is
rejected with 400 and the exact message "invalid search parameters" and no
backend call; with at least one of them present the request passes that
presence check (its outcome is never that exact rejection); a present
rating that does not parse as a float is rejected with 400. -/
theorem search_filter_validation :
    (∀ pg lim rpc, searchKitchens "" "" "" pg lim rpc =
      .reject 400 (errBody "invalid search parameters")) ∧
    (∀ q ct r pg lim rpc, (q ≠ "" ∨ ct ≠ "" ∨ r ≠ "") →
      searchKitchens q ct r pg lim rpc ≠
        .reject 400 (errBody "invalid search parameters")) ∧
    (∀ q ct r pg lim rpc e, r ≠ "" → goParseFloat r = .error e →
      searchKitchens q ct r pg lim rpc =
        .reject 400 (errBody (wrapErr "invalid search parameters" e))) := by
  have lenS : ("invalid search parameters" : String).length = 25 := rfl
  refine ⟨?_, ?_, ?_⟩
  · intro pg lim rpc
    simp [searchKitchens]
  · intro q ct r pg lim rpc hor
    unfold searchKitchens
    rw [if_neg (by rcases hor with h | h | h <;> simp [h])]
    split
    · split
      · exact wrap_ne_bare _ _ _ (by rw [lenS]; omega)
      · exact searchProceed_ne_bare _ _ _ _ _ _
    · exact searchProceed_ne_bare _ _ _ _ _ _
  · intro q ct r pg lim rpc e hr hparse
    unfold searchKitchens
    rw [if_neg (by simp [hr])]
    rw [if_pos (by simp [hr]), hparse]

/-- Witness for C4: all filters empty is the bare 400; a present query
passes the presence check; an unparseable rating is a 400 with the wrapped
message. -/
theorem search_filter_validation_witness :
    searchKitchens "" "" "" "1" "10" (Except.ok Json.null) =
      .reject 400 (errBody "invalid search parameters") ∧
    searchKitchens "pizza" "" "" "1" "10" (Except.ok Json.null) ≠
      .reject 400 (errBody "invalid search parameters") ∧
    searchKitchens "" "" "abc" "1" "10" (Except.ok Json.null) =
      .reject 400 (errBody (wrapErr "invalid search parameters"
        "strconv.ParseFloat: parsing \x22abc\x22: invalid syntax")) := by
  refine ⟨?_, ?_, ?_⟩
  · exact search_filter_validation.1 "1" "10" (Except.ok Json.null)
  · exact search_filter_validation.2.1 "pizza" "" "" "1" "10"
      (Except.ok Json.null) (Or.inl (by decide))
  · exact search_filter_validation.2.2 "" "" "abc" "1" "10"
      (Except.ok Json.null) _ (by decide) rfl

/-- C5 counterexample: the kitchen-dishes listing route carries an id path
parameter, yet a non-UUID id produces no 400 and does not prevent the
backend call: the handler answers 200 after calling the dish service. -/
theorem id_validation_counterexample :
    goUuidParse "not-a-uuid" = .error "invalid UUID length: 10" ∧
    fetchDishes "not-a-uuid" "1" "10" (Except.ok Json.null) =
      HResult.respond ⟨5, ⟨10, 0⟩⟩ 200 Json.null := ⟨rfl, rfl⟩

/-- C5 amended: on every id-carrying route except the kitchen-dishes
listing, a non-UUID id yields 400 with the wrapped message shown and no
backend call; the kitchen-orders and kitchen-reviews listings misname the
entity as "invalid dish ID", and the dish CRUD routes spell "ID" in upper
case; the kitchen-dishes listing handler ignores its id entirely. -/
theorem id_validation_amended (id e : String) (hid : goUuidParse id = .error e) :
    (∀ rpc, getUser id rpc = .reject 400 (errBody (wrapErr "invalid user id" e))) ∧
    (∀ d rpc, updateUser id d rpc =
      .reject 400 (errBody (wrapErr "invalid user id" e))) ∧
    (∀ rpc, deleteUser id rpc =
      .reject 400 (errBody (wrapErr "invalid user id" e))) ∧
    (∀ sd ed rpc, trackActivity id sd ed rpc =
      .reject 400 (errBody (wrapErr "invalid user id" e))) ∧
    (∀ rpc, getKitchen id rpc =
      .reject 400 (errBody (wrapErr "invalid kitchen id" e))) ∧
    (∀ d rpc, updateKitchen id d rpc =
      .reject 400 (errBody (wrapErr "invalid kitchen id" e))) ∧
    (∀ rpc, deleteKitchen id rpc =
      .reject 400 (errBody (wrapErr "invalid kitchen id" e))) ∧
    (∀ sd ed rpc, getStatistics id sd ed rpc =
      .reject 400 (errBody (wrapErr "invalid kitchen id" e))) ∧
    (∀ d rpc, setWorkingHours id d rpc =
      .reject 400 (errBody (wrapErr "invalid kitchen id" e))) ∧
    (∀ rpc, getDish id rpc =
      .reject 400 (errBody (wrapErr "invalid dish ID" e))) ∧
    (∀ d rpc, updateDish id d rpc =
      .reject 400 (errBody (wrapErr "invalid dish ID" e))) ∧
    (∀ rpc, deleteDish id rpc =
      .reject 400 (errBody (wrapErr "invalid dish ID" e))) ∧
    (∀ rpc, getNutrition id rpc =
      .reject 400 (errBody (wrapErr "invalid dish id" e))) ∧
    (∀ rpc, getOrderByID id rpc =
      .reject 400 (errBody (wrapErr "invalid order id" e))) ∧
    (∀ d rpc, changeStatus id d rpc =
      .reject 400 (errBody (wrapErr "invalid order id" e))) ∧
    (∀ st pg lim rpc, fetchOrdersForKitchen id st pg lim rpc =
      .reject 400 (errBody (wrapErr "invalid dish ID" e))) ∧
    (∀ pg lim rpc, getReviews id pg lim rpc =
      .reject 400 (errBody (wrapErr "invalid dish ID" e))) ∧
    (∀ rpc, getPayment id rpc =
      .reject 400 (errBody (wrapErr "invalid payment id" e))) ∧
    (∀ id2 pg lim rpc, fetchDishes id pg lim rpc = fetchDishes id2 pg lim rpc) := by
  refine ⟨?_, ?_, ?_, ?_, ?_, ?_, ?_, ?_, ?_, ?_, ?_, ?_, ?_, ?_, ?_, ?_, ?_,
    ?_, ?_⟩
  all_goals intros
  all_goals simp [getUser, updateUser, deleteUser, trackActivity, getKitchen,
    updateKitchen, deleteKitchen, getStatistics, setWorkingHours, getDish,
    updateDish, deleteDish, getNutrition, getOrderByID, changeStatus,
    fetchOrdersForKitchen, getReviews, getPayment, fetchDishes, hid]

/-- Witness for C5 amended at the non-UUID id "xyz". -/
theorem id_validation_amended_witness :
    getUser "xyz" (Except.ok Json.null) =
      .reject 400 (errBody (wrapErr "invalid user id" "invalid UUID length: 3")) ∧
    getReviews "xyz" "1" "10" (Except.ok Json.null) =
      .reject 400 (errBody (wrapErr "invalid dish ID" "invalid UUID length: 3")) := by
  obtain ⟨h1, -, -, -, -, -, -, -, -, -, -, -, -, -, -, -, h17, -, -⟩ :=
    id_validation_amended "xyz" "invalid UUID length: 3" rfl
  exact ⟨h1 _, h17 "1" "10" _⟩

/-- Whether a handler outcome respects a given deadline figure: any RPC it
performed was created with that many seconds in context.WithTimeout. -/
def timeoutIs {Req : Type} (t : Nat) : HResult Req → Prop
  | .reject _ _ => True
  | .respond c _ _ => c.timeoutSec = t

/-- C6 counterexample: SetWorkingHours and GetNutrition are extra-service
(analytics) operations, yet their calls carry a 5 second deadline, not the
claimed 10. -/
theorem timeout_counterexample :
    (setWorkingHours "6ba7b810-9dad-11d1-80b4-00c04fd430c8" (Except.ok Json.null)
        (Except.ok Json.null)).callOf =
      some ⟨5, ⟨"6ba7b810-9dad-11d1-80b4-00c04fd430c8", Json.null⟩⟩ ∧
    (getNutrition "6ba7b810-9dad-11d1-80b4-00c04fd430c8"
        (Except.ok Json.null)).callOf =
      some ⟨5, ⟨"6ba7b810-9dad-11d1-80b4-00c04fd430c8"⟩⟩ := ⟨rfl, rfl⟩

/-- C6 amended: every backend call carries a fixed per-operation deadline:
10 seconds for kitchen-statistics and user-activity, 5 seconds for every
other operation including set-working-hours and dish-nutrition. -/
theorem timeout_policy :
    (∀ id rpc, timeoutIs 5 (getUser id rpc)) ∧
    (∀ id d rpc, timeoutIs 5 (updateUser id d rpc)) ∧
    (∀ id rpc, timeoutIs 5 (deleteUser id rpc)) ∧
    (∀ id sd ed rpc, timeoutIs 10 (getStatistics id sd ed rpc)) ∧
    (∀ id sd ed rpc, timeoutIs 10 (trackActivity id sd ed rpc)) ∧
    (∀ id d rpc, timeoutIs 5 (setWorkingHours id d rpc)) ∧
    (∀ id rpc, timeoutIs 5 (getNutrition id rpc)) ∧
    (∀ d rpc, timeoutIs 5 (createKitchen d rpc)) ∧
    (∀ id rpc, timeoutIs 5 (getKitchen id rpc)) ∧
    (∀ id d rpc, timeoutIs 5 (updateKitchen id d rpc)) ∧
    (∀ id rpc, timeoutIs 5 (deleteKitchen id rpc)) ∧
    (∀ pg lim rpc, timeoutIs 5 (fetchKitchens pg lim rpc)) ∧
    (∀ q ct r pg lim rpc, timeoutIs 5 (searchKitchens q ct r pg lim rpc)) ∧
    (∀ d rpc, timeoutIs 5 (createOrder d rpc)) ∧
    (∀ id rpc, timeoutIs 5 (getOrderByID id rpc)) ∧
    (∀ id d rpc, timeoutIs 5 (changeStatus id d rpc)) ∧
    (∀ pg lim rpc, timeoutIs 5 (fetchOrdersForCustomer pg lim rpc)) ∧
    (∀ id st pg lim rpc, timeoutIs 5 (fetchOrdersForKitchen id st pg lim rpc)) ∧
    (∀ d rpc, timeoutIs 5 (createDish d rpc)) ∧
    (∀ id rpc, timeoutIs 5 (getDish id rpc)) ∧
    (∀ id d rpc, timeoutIs 5 (updateDish id d rpc)) ∧
    (∀ id rpc, timeoutIs 5 (deleteDish id rpc)) ∧
    (∀ id pg lim rpc, timeoutIs 5 (fetchDishes id pg lim rpc)) ∧
    (∀ d rpc, timeoutIs 5 (createReview d rpc)) ∧
    (∀ id pg lim rpc, timeoutIs 5 (getReviews id pg lim rpc)) ∧
    (∀ d rpc, timeoutIs 5 (createPayment d rpc)) ∧
    (∀ id rpc, timeoutIs 5 (getPayment id rpc)) := by
  refine ⟨?_, ?_, ?_, ?_, ?_, ?_, ?_, ?_, ?_, ?_, ?_, ?_, ?_, ?_, ?_, ?_, ?_,
    ?_, ?_, ?_, ?_, ?_, ?_, ?_, ?_, ?_, ?_⟩
  · intro id rpc; unfold getUser; (repeat' split) <;> trivial
  · intro id d rpc; unfold updateUser; (repeat' split) <;> trivial
  · intro id rpc; unfold deleteUser; (repeat' split) <;> trivial
  · intro id sd ed rpc; unfold getStatistics; (repeat' split) <;> trivial
  · intro id sd ed rpc; unfold trackActivity; (repeat' split) <;> trivial
  · intro id d rpc; unfold setWorkingHours; (repeat' split) <;> trivial
  · intro id rpc; unfold getNutrition; (repeat' split) <;> trivial
  · intro d rpc; unfold createKitchen; (repeat' split) <;> trivial
  · intro id rpc; unfold getKitchen; (repeat' split) <;> trivial
  · intro id d rpc; unfold updateKitchen; (repeat' split) <;> trivial
  · intro id rpc; unfold deleteKitchen; (repeat' split) <;> trivial
  · intro pg lim rpc; unfold fetchKitchens; (repeat' split) <;> trivial
  · intro q ct r pg lim rpc; unfold searchKitchens searchProceed
    (repeat' split) <;> trivial
  · intro d rpc; unfold createOrder; (repeat' split) <;> trivial
  · intro id rpc; unfold getOrderByID; (repeat' split) <;> trivial
  · intro id d rpc; unfold changeStatus; (repeat' split) <;> trivial
  · intro pg lim rpc; unfold fetchOrdersForCustomer; (repeat' split) <;> trivial
  · intro id st pg lim rpc; unfold fetchOrdersForKitchen
    (repeat' split) <;> trivial
  · intro d rpc; unfold createDish; (repeat' split) <;> trivial
  · intro id rpc; unfold getDish; (repeat' split) <;> trivial
  · intro id d rpc; unfold updateDish; (repeat' split) <;> trivial
  · intro id rpc; unfold deleteDish; (repeat' split) <;> trivial
  · intro id pg lim rpc; unfold fetchDishes; (repeat' split) <;> trivial
  · intro d rpc; unfold createReview; (repeat' split) <;> trivial
  · intro id pg lim rpc; unfold getReviews; (repeat' split) <;> trivial
  · intro d rpc; unfold createPayment; (repeat' split) <;> trivial
  · intro id rpc; unfold getPayment; (repeat' split) <;> trivial

/-- C7: on every route of the table (all are registered behind
middleware.Check) a missing Authorization header produces 401 before any
dispatcher can run — the result is the same for every possible dispatcher —
and an unparseable or invalid token likewise produces 401 without reaching a
dispatcher. -/
theorem auth_gate_short_circuit :
    (∀ jp dispatch route, route ∈ routeTable →
      serve jp dispatch route "" =
        (401, errBody "Authorization header is required")) ∧
    (∀ jp dispatch route auth e, route ∈ routeTable → auth ≠ "" →
      jp auth = .error e →
      serve jp dispatch route auth = (401, errBody "Token could not be parsed")) ∧
    (∀ jp dispatch route auth t, route ∈ routeTable → auth ≠ "" →
      jp auth = .ok t → t.valid = false →
      serve jp dispatch route auth = (401, errBody "Invalid token provided")) := by
  refine ⟨?_, ?_, ?_⟩
  · intro jp dispatch route _
    simp [serve, check]
  · intro jp dispatch route auth e _ hne hjp
    simp [serve, check, hne, hjp]
  · intro jp dispatch route auth t _ hne hjp hvalid
    simp [serve, check, hne, hjp, hvalid]

/-- Witness for C7 on the first route of the table, with dispatchers that
would answer 200 if they ever ran. -/
theorem auth_gate_short_circuit_witness :
    serve (fun _ => .error "bad signature") (fun _ => (200, Json.null))
      ("GET", "/local-eats/users/:id", Op.getUser) "" =
      (401, errBody "Authorization header is required") ∧
    serve (fun _ => .error "bad signature") (fun _ => (200, Json.null))
      ("GET", "/local-eats/users/:id", Op.getUser) "sometoken" =
      (401, errBody "Token could not be parsed") ∧
    serve (fun _ => .ok ⟨false⟩) (fun _ => (200, Json.null))
      ("GET", "/local-eats/users/:id", Op.getUser) "sometoken" =
      (401, errBody "Invalid token provided") := by
  have hmem : ("GET", "/local-eats/users/:id", Op.getUser) ∈ routeTable := by
    simp [routeTable]
  exact ⟨auth_gate_short_circuit.1 _ _ _ hmem,
    auth_gate_short_circuit.2.1 _ _ _ _ "bad signature" hmem (by decide) rfl,
    auth_gate_short_circuit.2.2 _ _ _ _ ⟨false⟩ hmem (by decide) rfl rfl⟩

/-- The shape claim for one HTTP response: either success (200, any body) or
a failure whose status is 400, 401 or 500 and whose body is the single-field
error envelope. -/
def envelopeOk (resp : Nat × Json) : Prop :=
  resp.1 = 200 ∨
    ((resp.1 = 400 ∨ resp.1 = 401 ∨ resp.1 = 500) ∧ ∃ m, resp.2 = errBody m)

/-- envelopeOk of a handler outcome's response. -/
def HResult.envOk {Req : Type} (r : HResult Req) : Prop :=
  envelopeOk r.http

/-- The shape claim for a middleware result: when it aborts, the status is
401 and the body is the error envelope. -/
def checkEnvOk : Option (Nat × Json) → Prop
  | none => True
  | some resp => resp.1 = 401 ∧ ∃ m, resp.2 = errBody m

/-- A 400 rejection carrying the envelope satisfies the shape claim. -/
theorem envOk_reject400 {Req : Type} (m : String) :
    (HResult.reject 400 (errBody m) : HResult Req).envOk :=
  Or.inr ⟨Or.inl rfl, m, rfl⟩

/-- A 200 response with any body satisfies the shape claim. -/
theorem envOk_respond200 {Req : Type} (c : GrpcCall Req) (b : Json) :
    (HResult.respond c 200 b).envOk := Or.inl rfl

/-- A 500 response carrying the envelope satisfies the shape claim. -/
theorem envOk_respond500 {Req : Type} (c : GrpcCall Req) (m : String) :
    (HResult.respond c 500 (errBody m)).envOk :=
  Or.inr ⟨Or.inr (Or.inr rfl), m, rfl⟩

/-- C8: across the auth middleware and every handler, every failure response
is the single-field error envelope with status 400, 401 or 500, and every
success is a 200. -/
theorem error_envelope_invariant :
    (∀ jp auth, checkEnvOk (check jp auth)) ∧
    (∀ id rpc, (getUser id rpc).envOk) ∧
    (∀ id d rpc, (updateUser id d rpc).envOk) ∧
    (∀ id rpc, (deleteUser id rpc).envOk) ∧
    (∀ id sd ed rpc, (getStatistics id sd ed rpc).envOk) ∧
    (∀ id sd ed rpc, (trackActivity id sd ed rpc).envOk) ∧
    (∀ id d rpc, (setWorkingHours id d rpc).envOk) ∧
    (∀ id rpc, (getNutrition id rpc).envOk) ∧
    (∀ d rpc, (createKitchen d rpc).envOk) ∧
    (∀ id rpc, (getKitchen id rpc).envOk) ∧
    (∀ id d rpc, (updateKitchen id d rpc).envOk) ∧
    (∀ id rpc, (deleteKitchen id rpc).envOk) ∧
    (∀ pg lim rpc, (fetchKitchens pg lim rpc).envOk) ∧
    (∀ q ct r pg lim rpc, (searchKitchens q ct r pg lim rpc).envOk) ∧
    (∀ d rpc, (createOrder d rpc).envOk) ∧
    (∀ id rpc, (getOrderByID id rpc).envOk) ∧
    (∀ id d rpc, (changeStatus id d rpc).envOk) ∧
    (∀ pg lim rpc, (fetchOrdersForCustomer pg lim rpc).envOk) ∧
    (∀ id st pg lim rpc, (fetchOrdersForKitchen id st pg lim rpc).envOk) ∧
    (∀ d rpc, (createDish d rpc).envOk) ∧
    (∀ id rpc, (getDish id rpc).envOk) ∧
    (∀ id d rpc, (updateDish id d rpc).envOk) ∧
    (∀ id rpc, (deleteDish id rpc).envOk) ∧
    (∀ id pg lim rpc, (fetchDishes id pg lim rpc).envOk) ∧
    (∀ d rpc, (createReview d rpc).envOk) ∧
    (∀ id pg lim rpc, (getReviews id pg lim rpc).envOk) ∧
    (∀ d rpc, (createPayment d rpc).envOk) ∧
    (∀ id rpc, (getPayment id rpc).envOk) := by
  refine ⟨?_, ?_, ?_, ?_, ?_, ?_, ?_, ?_, ?_, ?_, ?_, ?_, ?_, ?_, ?_, ?_, ?_,
    ?_, ?_, ?_, ?_, ?_, ?_, ?_, ?_, ?_, ?_, ?_⟩
  · intro jp auth
    unfold check
    (repeat' split) <;> first | trivial | exact ⟨rfl, _, rfl⟩
  · intro id rpc; unfold getUser
    (repeat' split) <;>
      first
      | exact envOk_reject400 _
      | exact envOk_respond500 _ _
      | exact envOk_respond200 _ _
  · intro id d rpc; unfold updateUser
    (repeat' split) <;>
      first
      | exact envOk_reject400 _
      | exact envOk_respond500 _ _
      | exact envOk_respond200 _ _
  · intro id rpc; unfold deleteUser
    (repeat' split) <;>
      first
      | exact envOk_reject400 _
      | exact envOk_respond500 _ _
      | exact envOk_respond200 _ _
  · intro id sd ed rpc; unfold getStatistics
    (repeat' split) <;>
      first
      | exact envOk_reject400 _
      | exact envOk_respond500 _ _
      | exact envOk_respond200 _ _
  · intro id sd ed rpc; unfold trackActivity
    (repeat' split) <;>
      first
      | exact envOk_reject400 _
      | exact envOk_respond500 _ _
      | exact envOk_respond200 _ _
  · intro id d rpc; unfold setWorkingHours
    (repeat' split) <;>
      first
      | exact envOk_reject400 _
      | exact envOk_respond500 _ _
      | exact envOk_respond200 _ _
  · intro id rpc; unfold getNutrition
    (repeat' split) <;>
      first
      | exact envOk_reject400 _
      | exact envOk_respond500 _ _
      | exact envOk_respond200 _ _
  · intro d rpc; unfold createKitchen
    (repeat' split) <;>
      first
      | exact envOk_reject400 _
      | exact envOk_respond500 _ _
      | exact envOk_respond200 _ _
  · intro id rpc; unfold getKitchen
    (repeat' split) <;>
      first
      | exact envOk_reject400 _
      | exact envOk_respond500 _ _
      | exact envOk_respond200 _ _
  · intro id d rpc; unfold updateKitchen
    (repeat' split) <;>
      first
      | exact envOk_reject400 _
      | exact envOk_respond500 _ _
      | exact envOk_respond200 _ _
  · intro id rpc; unfold deleteKitchen
    (repeat' split) <;>
      first
      | exact envOk_reject400 _
      | exact envOk_respond500 _ _
      | exact envOk_respond200 _ _
  · intro pg lim rpc; unfold fetchKitchens
    (repeat' split) <;>
      first
      | exact envOk_reject400 _
      | exact envOk_respond500 _ _
      | exact envOk_respond200 _ _
  · intro q ct r pg lim rpc; unfold searchKitchens searchProceed
    (repeat' split) <;>
      first
      | exact envOk_reject400 _
      | exact envOk_respond500 _ _
      | exact envOk_respond200 _ _
  · intro d rpc; unfold createOrder
    (repeat' split) <;>
      first
      | exact envOk_reject400 _
      | exact envOk_respond500 _ _
      | exact envOk_respond200 _ _
  · intro id rpc; unfold getOrderByID
    (repeat' split) <;>
      first
      | exact envOk_reject400 _
      | exact envOk_respond500 _ _
      | exact envOk_respond200 _ _
  · intro id d rpc; unfold changeStatus
    (repeat' split) <;>
      first
      | exact envOk_reject400 _
      | exact envOk_respond500 _ _
      | exact envOk_respond200 _ _
  · intro pg lim rpc; unfold fetchOrdersForCustomer
    (repeat' split) <;>
      first
      | exact envOk_reject400 _
      | exact envOk_respond500 _ _
      | exact envOk_respond200 _ _
  · intro id st pg lim rpc; unfold fetchOrdersForKitchen
    (repeat' split) <;>
      first
      | exact envOk_reject400 _
      | exact envOk_respond500 _ _
      | exact envOk_respond200 _ _
  · intro d rpc; unfold createDish
    (repeat' split) <;>
      first
      | exact envOk_reject400 _
      | exact envOk_respond500 _ _
      | exact envOk_respond200 _ _
  · intro id rpc; unfold getDish
    (repeat' split) <;>
      first
      | exact envOk_reject400 _
      | exact envOk_respond500 _ _
      | exact envOk_respond200 _ _
  · intro id d rpc; unfold updateDish
    (repeat' split) <;>
      first
      | exact envOk_reject400 _
      | exact envOk_respond500 _ _
      | exact envOk_respond200 _ _
  · intro id rpc; unfold deleteDish
    (repeat' split) <;>
      first
      | exact envOk_reject400 _
      | exact envOk_respond500 _ _
      | exact envOk_respond200 _ _
  · intro id pg lim rpc; unfold fetchDishes
    (repeat' split) <;>
      first
      | exact envOk_reject400 _
      | exact envOk_respond500 _ _
      | exact envOk_respond200 _ _
  · intro d rpc; unfold createReview
    (repeat' split) <;>
      first
      | exact envOk_reject400 _
      | exact envOk_respond500 _ _
      | exact envOk_respond200 _ _
  · intro id pg lim rpc; unfold getReviews
    (repeat' split) <;>
      first
      | exact envOk_reject400 _
      | exact envOk_respond500 _ _
      | exact envOk_respond200 _ _
  · intro d rpc; unfold createPayment
    (repeat' split) <;>
      first
      | exact envOk_reject400 _
      | exact envOk_respond500 _ _
      | exact envOk_respond200 _ _
  · intro id rpc; unfold getPayment
    (repeat' split) <;>
      first
      | exact envOk_reject400 _
      | exact envOk_respond500 _ _
      | exact envOk_respond200 _ _

/-- C9: with the user-service handle absent (grpc.NewClient failed, nil
stored), a request with a valid id reaches the nil-interface method call:
the run ends as a recovered panic — HTTP 500 with an empty body, which is
not the error envelope of any message — and no RPC call is recorded; the
model is a pure function, so repeated identical requests give the same
outcome. -/
theorem nil_client_behaviour :
    getUserWithClient none "6ba7b810-9dad-11d1-80b4-00c04fd430c8" =
      RunOut.recovered ∧
    (getUserWithClient none "6ba7b810-9dad-11d1-80b4-00c04fd430c8").http =
      (500, Json.null) ∧
    (getUserWithClient none "6ba7b810-9dad-11d1-80b4-00c04fd430c8").callOf =
      none ∧
    (∀ m, Json.null ≠ errBody m) :=
  ⟨rfl, rfl, rfl, fun _ h => Json.noConfusion h⟩

/-- C10: in every update operation the id of the RPC payload is the
validated path parameter and the remaining payload fields are the decoded
body fields; for UpdateDish in particular, whose bound body type carries its
own id field, that body id never reaches the payload. -/
theorem update_payload_uses_path_id
    (id : String) (hid : goUuidParse id = .ok ()) :
    (∀ d rpc, (updateUser id (.ok d) rpc).callOf =
      some ⟨5, ⟨id, d.fullName, d.address, d.phoneNumber⟩⟩) ∧
    (∀ d rpc, (updateKitchen id (.ok d) rpc).callOf =
      some ⟨5, ⟨id, d.name, d.description, d.phoneNumber⟩⟩) ∧
    (∀ d rpc, (updateDish id (.ok d) rpc).callOf =
      some ⟨5, ⟨id, d.name, d.price, d.available⟩⟩) ∧
    (∀ d rpc, (changeStatus id (.ok d) rpc).callOf =
      some ⟨5, ⟨id, d.status⟩⟩) := by
  refine ⟨?_, ?_, ?_, ?_⟩ <;> intro d rpc
  · unfold updateUser
    rw [hid]
    cases rpc <;> simp [HResult.callOf]
  · unfold updateKitchen
    rw [hid]
    cases rpc <;> simp [HResult.callOf]
  · unfold updateDish
    rw [hid]
    cases rpc <;> simp [HResult.callOf]
  · unfold changeStatus
    rw [hid]
    cases rpc <;> simp [HResult.callOf]

/-- Witness for C10: the dish update's body carries a different id; the
payload still uses the path id. -/
theorem update_payload_uses_path_id_witness :
    (updateDish "6ba7b810-9dad-11d1-80b4-00c04fd430c8"
        (.ok ⟨"99999999-0000-0000-0000-000000000000", "pasta", 7, true⟩)
        (Except.ok Json.null)).callOf =
      some ⟨5, ⟨"6ba7b810-9dad-11d1-80b4-00c04fd430c8", "pasta", 7, true⟩⟩ := by
  exact (update_payload_uses_path_id "6ba7b810-9dad-11d1-80b4-00c04fd430c8"
    rfl).2.2.1 ⟨"99999999-0000-0000-0000-000000000000", "pasta", 7, true⟩
    (Except.ok Json.null)

end Gateway







